import Mathlib

/-!
Verification of the picture-frame slideshow engine: a shallow embedding of
the image viewer (shared image list, folder watcher, display loop, render
pipeline) and of the upload-server extension filter, with theorems settling
the specification claims against the code.

Strings are modelled by the Lean String type (a structure over List Char);
filenames in this system are ASCII, so Char.toLower agrees with the Python
lowercasing and code-point comparison agrees with Python string order.
Filesystem responses (directory listings, existence checks, event reads)
are passed to the embedded functions as explicit inputs; exceptions are
modelled by Option and Except values.
-/

namespace PiCtureFrame

/-- Characters of the Python str.lower of a string, as a character map;
exact for the ASCII filenames this system handles. -/
def pyLower (s : String) : List Char := s.data.map Char.toLower

/-- The tuple of extensions passed to endswith in get_image_list of
image_viewer.py, in source order. -/
def IMAGE_EXTENSIONS : List (List Char) :=
  [(".png").data, (".jpg").data, (".jpeg").data, (".bmp").data,
   (".gif").data, (".webp").data]

/-- Python str.endswith as a suffix test on character lists. -/
def endswith (s e : List Char) : Bool := s.drop (s.length - e.length) == e

/-- The filter of get_image_list: keep f when f.lower() ends with one of the
allowed image extensions. -/
def isImageFile (f : String) : Bool :=
  IMAGE_EXTENSIONS.any (fun e => endswith (pyLower f) e)

/-- Code-point comparison of character lists, the order used by Python
sorted on strings. -/
def strLeB : List Char → List Char → Bool
  | [], _ => true
  | _ :: _, [] => false
  | c :: cs, d :: ds =>
    if c.toNat < d.toNat then true
    else if d.toNat < c.toNat then false
    else strLeB cs ds

/-- Python string order as a relation on String. -/
def pyStrLe (a b : String) : Prop := strLeB a.data b.data = true

instance : DecidableRel pyStrLe :=
  fun a b => inferInstanceAs (Decidable (strLeB a.data b.data = true))

theorem strLeB_total (a b : List Char) : strLeB a b = true ∨ strLeB b a = true := by
  induction a generalizing b with
  | nil => left; rfl
  | cons c cs ih =>
    cases b with
    | nil => right; rfl
    | cons d ds =>
      by_cases h1 : c.toNat < d.toNat
      · left; simp [strLeB, h1]
      · by_cases h2 : d.toNat < c.toNat
        · right; simp [strLeB, h2]
        · rcases ih ds with h | h
          · left; simp [strLeB, h1, h2, h]
          · right; simp [strLeB, h1, h2, h]

theorem strLeB_trans (a b c : List Char) (hab : strLeB a b = true)
    (hbc : strLeB b c = true) : strLeB a c = true := by
  induction a generalizing b c with
  | nil => rfl
  | cons x xs ih =>
    cases b with
    | nil => simp [strLeB] at hab
    | cons y ys =>
      cases c with
      | nil => simp [strLeB] at hbc
      | cons z zs =>
        simp only [strLeB] at hab hbc ⊢
        have hab2 : x.toNat < y.toNat ∨ (x.toNat = y.toNat ∧ strLeB xs ys = true) := by
          by_cases h1 : x.toNat < y.toNat
          · exact Or.inl h1
          · by_cases h2 : y.toNat < x.toNat
            · simp [h1, h2] at hab
            · exact Or.inr ⟨by omega, by simpa [h1, h2] using hab⟩
        have hbc2 : y.toNat < z.toNat ∨ (y.toNat = z.toNat ∧ strLeB ys zs = true) := by
          by_cases h1 : y.toNat < z.toNat
          · exact Or.inl h1
          · by_cases h2 : z.toNat < y.toNat
            · simp [h1, h2] at hbc
            · exact Or.inr ⟨by omega, by simpa [h1, h2] using hbc⟩
        rcases hab2 with h1 | ⟨h1, hs1⟩ <;> rcases hbc2 with h2 | ⟨h2, hs2⟩
        · simp [show x.toNat < z.toNat by omega]
        · simp [show x.toNat < z.toNat by omega]
        · simp [show x.toNat < z.toNat by omega]
        · simp [show ¬ x.toNat < z.toNat by omega, show ¬ z.toNat < x.toNat by omega]
          exact ih ys zs hs1 hs2

instance : IsTotal String pyStrLe := ⟨fun a b => strLeB_total a.data b.data⟩

instance : IsTrans String pyStrLe := ⟨fun a b c => strLeB_trans a.data b.data c.data⟩

/-- Embedding of get_image_list from image_viewer.py. The input is the
response of os.listdir: some names on success, none when listing raised.
On success the names are filtered by the lowercased-endswith test and
sorted; on an exception the function logs and returns the empty list. -/
def get_image_list (listing : Option (List String)) : List String :=
  match listing with
  | some names => List.insertionSort pyStrLe (names.filter isImageFile)
  | none => []

/-- The shared state owned by the image-list management: the global
image_files list and the list_updated event flag. -/
structure SharedListState where
  image_files : List String
  list_updated : Bool
  deriving Repr, DecidableEq

/-- Embedding of update_image_list from image_viewer.py: compute the new
list from the listing response and, only when it differs from the stored
one, swap it in and set the updated flag. -/
def update_image_list (st : SharedListState) (listing : Option (List String)) :
    SharedListState :=
  let newList := get_image_list listing
  if newList ≠ st.image_files then
    { image_files := newList, list_updated := true }
  else st

/-- One outcome of the inotify read inside the file_watcher loop: the read
returned (with or without events, carrying the listing that a triggered
rescan would see), or the read or the rescan raised an exception. -/
inductive WatcherRead where
  | ok (hasEvents : Bool) (listing : Option (List String))
  | raised
  deriving Repr, DecidableEq

/-- Body of one iteration of the file_watcher while-loop, before the
enclosing try-except: events trigger update_image_list after the settle
delay, an empty read does nothing, and a raise propagates. -/
def watcher_body (st : SharedListState) (r : WatcherRead) :
    Except Unit SharedListState :=
  match r with
  | .ok true listing => .ok (update_image_list st listing)
  | .ok false _ => .ok st
  | .raised => .error ()

/-- One iteration of the file_watcher loop with its try-except: an exception
from the body is logged, the thread sleeps one second and continues with the
state unchanged. -/
def watcher_iteration (st : SharedListState) (r : WatcherRead) : SharedListState :=
  match watcher_body st r with
  | .ok st2 => st2
  | .error _ => st

/-- Embedding of file_watcher from image_viewer.py over a finite schedule of
read outcomes. The setup argument is the result of constructing the INotify
handle and calling add_watch, which happen before the while-loop and outside
any try-except; if the setup raises, the exception propagates and the
watcher thread terminates, which this model renders as none. -/
def file_watcher (setup : Except Unit Unit) (reads : List WatcherRead)
    (st : SharedListState) : Option SharedListState :=
  match setup with
  | .error _ => none
  | .ok _ => some (reads.foldl watcher_iteration st)

/-- Seconds each image stays on screen, from USER SETTINGS. -/
def DISPLAY_TIME : Nat := 30

/-- The display-loop state owned by main: current_index and
last_display_time, with time in whole seconds. -/
structure LoopState where
  currentIndex : Nat
  lastDisplayTime : Nat
  deriving Repr, DecidableEq

/-- Index normalization appearing twice in the main loop: reset the index to
zero when it is at or beyond the length of the current list. -/
def normalizeOnUpdate (i n : Nat) : Nat := if i ≥ n then 0 else i

/-- External responses consumed by one iteration of the main display loop:
the snapshot copied under the lock, the state of the list_updated flag, the
os.path.exists answer, the time.time reading, and whether the wake, load and
fit steps, the open call and the E-Ink refresh succeed. -/
structure LoopEnv where
  files : List String
  listUpdated : Bool
  fileExists : Bool
  now : Nat
  fileVanishedDuringOpen : Bool
  renderOk : Bool
  displayOk : Bool
  deriving Repr, DecidableEq

/-- Observable result of one iteration of the main display loop. -/
structure StepResult where
  state : LoopState
  rescan : Bool
  sleep : Nat
  displayed : Bool
  shown : Option String
  deriving Repr, DecidableEq

/-- Default string for the total list lookup; never selected because the
lookup index is normalized below the list length first. -/
def defaultName : String := ""

/-- Embedding of one iteration of the while-loop in main of image_viewer.py,
in source order: copy the snapshot; if list_updated was set, clear it and
reset the index when out of range; idle-sleep five seconds on an empty list;
re-normalize the index; run the existence check, the dwell check, then the
load-fit-display sequence with its FileNotFoundError and generic exception
handlers. -/
def main_loop_step (s : LoopState) (env : LoopEnv) : StepResult :=
  let n := env.files.length
  let i1 := if env.listUpdated then normalizeOnUpdate s.currentIndex n else s.currentIndex
  if env.files.isEmpty then
    { state := { currentIndex := i1, lastDisplayTime := s.lastDisplayTime },
      rescan := false, sleep := 5, displayed := false, shown := none }
  else
    let u := normalizeOnUpdate i1 n
    let filename := env.files.getD u defaultName
    if env.fileExists = false then
      { state := { currentIndex := u, lastDisplayTime := s.lastDisplayTime },
        rescan := true, sleep := 0, displayed := false, shown := none }
    else if env.now - s.lastDisplayTime < DISPLAY_TIME then
      { state := { currentIndex := u, lastDisplayTime := s.lastDisplayTime },
        rescan := false, sleep := 1, displayed := false, shown := none }
    else if env.fileVanishedDuringOpen then
      { state := { currentIndex := u, lastDisplayTime := s.lastDisplayTime },
        rescan := true, sleep := 0, displayed := false, shown := none }
    else if env.renderOk = false then
      { state := { currentIndex := u + 1, lastDisplayTime := s.lastDisplayTime },
        rescan := false, sleep := 5, displayed := false, shown := none }
    else if env.displayOk then
      { state := { currentIndex := u + 1, lastDisplayTime := env.now },
        rescan := false, sleep := 0, displayed := true, shown := some filename }
    else
      { state := { currentIndex := u, lastDisplayTime := s.lastDisplayTime },
        rescan := false, sleep := 5, displayed := false, shown := some filename }

/-- Environment of a fully successful iteration: the file exists, the dwell
interval has just elapsed, no list update arrived, and render and refresh
succeed. -/
def successEnv (files : List String) (s : LoopState) : LoopEnv :=
  { files := files, listUpdated := false, fileExists := true,
    now := s.lastDisplayTime + DISPLAY_TIME, fileVanishedDuringOpen := false,
    renderOk := true, displayOk := true }

/-- State after one fully successful display-and-refresh iteration. -/
def advance_success (files : List String) (s : LoopState) : LoopState :=
  (main_loop_step s (successEnv files s)).state

/-- Python int() applied to a nonnegative rational: truncation, which equals
the floor there. -/
def pyInt (q : ℚ) : Nat := q.num.toNat / q.den

/-- Geometry computed by fit_image_to_screen of image_viewer.py: the canvas
dimensions, the resized image dimensions, and the centering offsets. Ratios
are modelled as exact rationals. -/
structure FitResult where
  canvasW : Nat
  canvasH : Nat
  newW : Nat
  newH : Nat
  xOff : Nat
  yOff : Nat
  deriving Repr, DecidableEq

/-- Embedding of fit_image_to_screen from image_viewer.py: compare the image
aspect to the screen aspect; fit to width when the image is strictly wider,
else fit to height; build the white canvas at the exact screen size and
center the resized image with floored offsets. -/
def fit_image_to_screen (w h sw sh : Nat) : FitResult :=
  let imgAspect : ℚ := (w : ℚ) / (h : ℚ)
  let screenAspect : ℚ := (sw : ℚ) / (sh : ℚ)
  let wh : Nat × Nat :=
    if screenAspect < imgAspect then (sw, pyInt ((sw : ℚ) / imgAspect))
    else (pyInt ((sh : ℚ) * imgAspect), sh)
  { canvasW := sw, canvasH := sh, newW := wh.1, newH := wh.2,
    xOff := (sw - wh.1) / 2, yOff := (sh - wh.2) / 2 }

/-- Modelled from the spec: the repository sources under src contain no
16-bit packed-pixel conversion (the E-Ink path hands the canvas to the
panel-specific palette encoder), so the raw-framebuffer RGB565 step is taken
from the specification words: red keeps its top 5 bits, green its top 6,
blue its top 5, packed as r5 shifted by 11, or g6 shifted by 5, or b5. -/
def rgb888_to_rgb565 (r g b : Nat) : Nat :=
  (((r % 256) >>> 3) <<< 11) ||| (((g % 256) >>> 2) <<< 5) ||| ((b % 256) >>> 3)

/-- The ALLOWED_EXTENSIONS set of image_upload_server.py, as the list of its
elements. -/
def ALLOWED_EXTENSIONS : List (List Char) :=
  [(".png").data, (".jpg").data, (".jpeg").data, (".bmp").data,
   (".gif").data, (".webp").data]

/-- Suffix of a character list starting at its last dot: the continuation of
the scan that os.path.splitext performs after skipping leading dots. -/
def extAfterLastDot : List Char → List Char
  | [] => []
  | c :: cs =>
    if c = '.' ∧ cs.contains '.' = false then c :: cs
    else extAfterLastDot cs

/-- Extension component of os.path.splitext for a separator-free filename:
leading dots never start an extension; otherwise the extension starts at the
last dot. -/
def splitext_ext (cs : List Char) : List Char :=
  if (cs.dropWhile (fun c => c = '.')).contains '.' then
    extAfterLastDot (cs.dropWhile (fun c => c = '.'))
  else []

/-- Embedding of allowed_file from image_upload_server.py: lowercase the
filename, take its splitext extension, and test membership in
ALLOWED_EXTENSIONS. -/
def allowed_file (f : String) : Bool :=
  ALLOWED_EXTENSIONS.contains (splitext_ext (pyLower f))

/-- Written from the words of claim C10: the filename contains a
dot-separated extension, that is, it has the shape stem dot ext with ext
nonempty and dot-free. -/
def hasDotSeparatedExt (f : String) : Prop :=
  ∃ stem ext : List Char,
    f.data = stem ++ '.' :: ext ∧ ext ≠ [] ∧ ext.contains '.' = false

/-! Helper lemmas about the extension tests. -/

theorem endswith_iff (s e : List Char) : endswith s e = true ↔ e <:+ s := by
  unfold endswith
  rw [beq_iff_eq]
  constructor
  · intro hdrop
    exact List.suffix_iff_eq_drop.mpr hdrop.symm
  · intro hsuf
    exact (List.suffix_iff_eq_drop.mp hsuf).symm

theorem extAfterLastDot_suffix (cs : List Char) : extAfterLastDot cs <:+ cs := by
  induction cs with
  | nil => exact List.nil_suffix
  | cons c cs ih =>
    unfold extAfterLastDot
    split
    · exact List.suffix_refl _
    · exact ih.trans (List.suffix_cons c cs)

theorem extAfterLastDot_eq (e cs : List Char) (he : e.contains '.' = false)
    (hsuf : ('.' :: e) <:+ cs) : extAfterLastDot cs = '.' :: e := by
  induction cs with
  | nil =>
    have := List.suffix_nil.mp hsuf
    exact absurd this (by simp)
  | cons c cs ih =>
    rcases List.suffix_cons_iff.mp hsuf with heq | htail
    · injection heq.symm with hc hcs
      subst hc
      subst hcs
      rw [extAfterLastDot]
      rw [if_pos ⟨rfl, he⟩]
    · have hmem : ('.' : Char) ∈ cs := htail.subset (List.mem_cons_self _ _)
      have hcont : cs.contains '.' = true := List.elem_iff.mpr hmem
      rw [extAfterLastDot]
      rw [if_neg (fun hcc => by rw [hcont] at hcc; exact absurd hcc.2 (by decide))]
      exact ih htail

theorem splitext_ext_suffix (cs : List Char) : splitext_ext cs <:+ cs := by
  unfold splitext_ext
  split
  · exact (extAfterLastDot_suffix _).trans (List.dropWhile_suffix _)
  · exact List.nil_suffix

theorem splitext_ext_of_suffix (e cs : List Char) (he : e.contains '.' = false)
    (hsuf : ('.' :: e) <:+ cs) :
    splitext_ext cs = [] ∨ splitext_ext cs = '.' :: e := by
  unfold splitext_ext
  by_cases hc : (cs.dropWhile (fun c => c = '.')).contains '.' = true
  · right
    rw [if_pos hc]
    have hrest : cs.dropWhile (fun c => c = '.') <:+ cs := List.dropWhile_suffix _
    rcases List.suffix_or_suffix_of_suffix hsuf hrest with h | h
    · exact extAfterLastDot_eq e _ he h
    · rcases List.suffix_cons_iff.mp h with heq | htail
      · rw [heq]
        exact extAfterLastDot_eq e _ he (List.suffix_refl _)
      · have hdotmem : ('.' : Char) ∈ cs.dropWhile (fun c => c = '.') :=
          List.elem_iff.mp hc
        have : ('.' : Char) ∈ e := htail.subset hdotmem
        have : e.contains '.' = true := List.elem_iff.mpr this
        rw [this] at he
        exact absurd he (by simp)
  · left
    rw [if_neg hc]

theorem image_extensions_shape (e : List Char) (he : e ∈ IMAGE_EXTENSIONS) :
    ∃ tl : List Char, e = '.' :: tl ∧ tl.contains '.' = false ∧ tl ≠ [] := by
  simp only [IMAGE_EXTENSIONS, List.mem_cons, List.not_mem_nil, or_false] at he
  rcases he with rfl | rfl | rfl | rfl | rfl | rfl
  · exact ⟨[('p'), ('n'), ('g')], by decide, by decide, by decide⟩
  · exact ⟨[('j'), ('p'), ('g')], by decide, by decide, by decide⟩
  · exact ⟨[('j'), ('p'), ('e'), ('g')], by decide, by decide, by decide⟩
  · exact ⟨[('b'), ('m'), ('p')], by decide, by decide, by decide⟩
  · exact ⟨[('g'), ('i'), ('f')], by decide, by decide, by decide⟩
  · exact ⟨[('w'), ('e'), ('b'), ('p')], by decide, by decide, by decide⟩

theorem isImageFile_iff (f : String) :
    isImageFile f = true ↔ ∃ e ∈ IMAGE_EXTENSIONS, e <:+ pyLower f := by
  unfold isImageFile
  rw [List.any_eq_true]
  constructor
  · rintro ⟨e, hmem, hend⟩
    exact ⟨e, hmem, (endswith_iff _ _).mp hend⟩
  · rintro ⟨e, hmem, hsuf⟩
    exact ⟨e, hmem, (endswith_iff _ _).mpr hsuf⟩

theorem allowed_file_iff (f : String) :
    allowed_file f = true ↔ splitext_ext (pyLower f) ∈ ALLOWED_EXTENSIONS := by
  unfold allowed_file
  exact List.elem_iff

/-- Claim C8: for every directory listing, get_image_list keeps exactly the
filenames whose lowercased form ends with one of the six dotted image
extensions (the case-insensitive extension test), returns them sorted in
Python string order (code-point lexicographic), and on the listing b.PNG,
a.jpg, c.txt yields exactly the snapshot a.jpg, b.PNG. -/
theorem c8_filter_sort :
    (∀ (l : List String) (f : String),
        f ∈ get_image_list (some l) ↔ f ∈ l ∧ ∃ e ∈ IMAGE_EXTENSIONS, e <:+ pyLower f)
    ∧ (∀ l : List String, List.Sorted pyStrLe (get_image_list (some l)))
    ∧ get_image_list (some [("b.PNG"), ("a.jpg"), ("c.txt")]) = [("a.jpg"), ("b.PNG")] := by
  refine ⟨fun l f => ?_, fun l => ?_, by decide⟩
  · unfold get_image_list
    rw [List.mem_insertionSort, List.mem_filter, isImageFile_iff]
  · exact List.sorted_insertionSort pyStrLe _

/-- Claim C10, counterexample: the filename ..png contains a dot-separated
extension (stem dot, extension png), the viewer filter accepts it, but
allowed_file of the upload server rejects it, because os.path.splitext
treats the leading dots as part of the root and reports an empty extension.
So the two predicates do not agree on all filenames that contain a
dot-separated extension. -/
theorem c10_counterexample :
    hasDotSeparatedExt ("..png")
    ∧ isImageFile ("..png") = true
    ∧ allowed_file ("..png") = false := by
  refine ⟨⟨[('.')], [('p'), ('n'), ('g')], by decide, by decide, by decide⟩, by decide, by decide⟩

/-- Claim C10, amended: every filename accepted by allowed_file of the
upload server is accepted by the viewer filter, hence every successfully
uploaded file is a member of the next successful snapshot; and the two
extension predicates agree on every filename whose splitext extension is
nonempty (equivalently, whose last dot is preceded by some non-dot
character). They can disagree on dot-leading names such as .png or ..png,
which the viewer accepts and the server rejects. -/
theorem c10_amended :
    (∀ f : String, allowed_file f = true → isImageFile f = true)
    ∧ (∀ (f : String) (l : List String),
        allowed_file f = true → f ∈ l → f ∈ get_image_list (some l))
    ∧ (∀ f : String, splitext_ext (pyLower f) ≠ [] → isImageFile f = allowed_file f) := by
  have hsame : ALLOWED_EXTENSIONS = IMAGE_EXTENSIONS := rfl
  have h1 : ∀ f : String, allowed_file f = true → isImageFile f = true := by
    intro f hf
    rw [allowed_file_iff] at hf
    rw [isImageFile_iff]
    exact ⟨splitext_ext (pyLower f), hsame ▸ hf, splitext_ext_suffix _⟩
  refine ⟨h1, fun f l hf hmem => ?_, fun f hne => ?_⟩
  · unfold get_image_list
    rw [List.mem_insertionSort, List.mem_filter]
    exact ⟨hmem, h1 f hf⟩
  · rw [Bool.eq_iff_iff]
    constructor
    · intro hv
      rw [isImageFile_iff] at hv
      rcases hv with ⟨e, hemem, hesuf⟩
      rcases image_extensions_shape e hemem with ⟨tl, rfl, htl, _⟩
      rcases splitext_ext_of_suffix tl (pyLower f) htl hesuf with h | h
      · exact absurd h hne
      · rw [allowed_file_iff, h]
        exact hsame ▸ hemem
    · exact h1 f

/-- Witness for the amended claim C10 at a concrete filename with an
uppercase extension. -/
theorem c10_witness :
    isImageFile ("photo.JPG") = true
    ∧ isImageFile ("photo.JPG") = allowed_file ("photo.JPG") :=
  ⟨c10_amended.1 ("photo.JPG") (by decide),
   c10_amended.2.2 ("photo.JPG") (by decide)⟩

/-! Helper lemmas about the display loop. -/

theorem normalizeOnUpdate_lt (i n : Nat) (hn : 0 < n) : normalizeOnUpdate i n < n := by
  unfold normalizeOnUpdate
  split <;> omega

theorem normalizeOnUpdate_idem (i n : Nat) :
    normalizeOnUpdate (normalizeOnUpdate i n) n = normalizeOnUpdate i n := by
  unfold normalizeOnUpdate
  by_cases h : i ≥ n <;> simp [h]

theorem normalizeOnUpdate_of_ge (i n : Nat) (h : n ≤ i) : normalizeOnUpdate i n = 0 := by
  unfold normalizeOnUpdate
  rw [if_pos h]

theorem normalizeOnUpdate_of_lt (i n : Nat) (h : i < n) : normalizeOnUpdate i n = i := by
  unfold normalizeOnUpdate
  rw [if_neg (by omega)]

theorem normalizeOnUpdate_succ_mod (i n : Nat) (hn : 0 < n) :
    normalizeOnUpdate (normalizeOnUpdate i n + 1) n = (normalizeOnUpdate i n + 1) % n := by
  have hu : normalizeOnUpdate i n < n := normalizeOnUpdate_lt i n hn
  by_cases h : normalizeOnUpdate i n + 1 ≥ n
  · rw [normalizeOnUpdate_of_ge _ _ h, (by omega : normalizeOnUpdate i n + 1 = n),
      Nat.mod_self]
  · rw [normalizeOnUpdate_of_lt _ _ (by omega), Nat.mod_eq_of_lt (by omega)]

theorem main_loop_step_success (files : List String) (s : LoopState) (h : files ≠ []) :
    main_loop_step s (successEnv files s) =
      { state := { currentIndex := normalizeOnUpdate s.currentIndex files.length + 1,
                   lastDisplayTime := s.lastDisplayTime + DISPLAY_TIME },
        rescan := false, sleep := 0, displayed := true,
        shown := some (files.getD (normalizeOnUpdate s.currentIndex files.length) defaultName) } := by
  unfold main_loop_step successEnv
  simp [List.isEmpty_iff, h, Nat.add_sub_cancel_left]

/-- Claim C2, counterexample: a refresh failure (display_image_on_eink
returns False) does not advance currentIndex. With one file, index 0 and
dwell elapsed, the iteration whose refresh fails leaves the index at 0, not
0 plus 1 as the claim states. -/
theorem c2_counterexample :
    ¬ ((main_loop_step { currentIndex := 0, lastDisplayTime := 0 }
          { files := [("a.jpg")], listUpdated := false, fileExists := true, now := 30,
            fileVanishedDuringOpen := false, renderOk := true,
            displayOk := false }).state.currentIndex = 0 + 1) := by
  decide

/-- Claim C2, amended: a render failure (an exception while waking the
display, opening or fitting the image) is logged, advances currentIndex by
one and backs off five seconds with lastDisplayTime unchanged; a refresh
failure (the display call returns False) is logged and backs off five
seconds but leaves the whole state, currentIndex included, unchanged, so
the same item is retried. Neither failure crashes the loop. -/
theorem c2_amended (s : LoopState) (env : LoopEnv) (hu : env.listUpdated = false)
    (hi : s.currentIndex < env.files.length) (hex : env.fileExists = true)
    (hd : DISPLAY_TIME ≤ env.now - s.lastDisplayTime)
    (hv : env.fileVanishedDuringOpen = false) :
    (env.renderOk = false →
      (main_loop_step s env).state.currentIndex = s.currentIndex + 1
      ∧ (main_loop_step s env).state.lastDisplayTime = s.lastDisplayTime
      ∧ (main_loop_step s env).sleep = 5)
    ∧ (env.renderOk = true → env.displayOk = false →
      (main_loop_step s env).state = s ∧ (main_loop_step s env).sleep = 5) := by
  have hne : env.files ≠ [] := by
    intro he
    rw [he] at hi
    simp at hi
  have hnu : normalizeOnUpdate s.currentIndex env.files.length = s.currentIndex := by
    unfold normalizeOnUpdate
    rw [if_neg (by omega)]
  constructor
  · intro hr
    unfold main_loop_step
    simp [hu, List.isEmpty_iff, hne, hex, hv, hr, hnu, Nat.not_lt.mpr hd]
  · intro hr hdisp
    unfold main_loop_step
    simp [hu, List.isEmpty_iff, hne, hex, hv, hr, hdisp, hnu, Nat.not_lt.mpr hd]

/-- Witness for the amended claim C2: with one file and dwell elapsed, a
render failure advances the index to 1, and a refresh failure leaves the
state unchanged. -/
theorem c2_witness :
    (main_loop_step { currentIndex := 0, lastDisplayTime := 0 }
        { files := [("a.jpg")], listUpdated := false, fileExists := true, now := 30,
          fileVanishedDuringOpen := false, renderOk := false,
          displayOk := true }).state.currentIndex = 0 + 1
    ∧ (main_loop_step { currentIndex := 0, lastDisplayTime := 0 }
        { files := [("a.jpg")], listUpdated := false, fileExists := true, now := 30,
          fileVanishedDuringOpen := false, renderOk := true,
          displayOk := false }).state = { currentIndex := 0, lastDisplayTime := 0 } :=
  ⟨((c2_amended { currentIndex := 0, lastDisplayTime := 0 }
      { files := [("a.jpg")], listUpdated := false, fileExists := true, now := 30,
        fileVanishedDuringOpen := false, renderOk := false, displayOk := true }
      rfl (by decide) rfl (by decide) rfl).1 rfl).1,
   ((c2_amended { currentIndex := 0, lastDisplayTime := 0 }
      { files := [("a.jpg")], listUpdated := false, fileExists := true, now := 30,
        fileVanishedDuringOpen := false, renderOk := true, displayOk := false }
      rfl (by decide) rfl (by decide) rfl).2 rfl rfl).1⟩

/-- Claim C5: a fully successful display-and-refresh iteration advances the
normalized current index (the index the loop uses to select the image, with
the out-of-range reset applied) by one modulo the snapshot length, and from
index 0 a number of consecutive successful advances equal to the snapshot
length returns the normalized index to 0. -/
theorem c5_wraparound (files : List String) (t : Nat) (h : files ≠ []) :
    (∀ s : LoopState,
        (main_loop_step s (successEnv files s)).displayed = true
        ∧ normalizeOnUpdate (advance_success files s).currentIndex files.length
            = (normalizeOnUpdate s.currentIndex files.length + 1) % files.length)
    ∧ normalizeOnUpdate
        ((advance_success files)^[files.length]
          { currentIndex := 0, lastDisplayTime := t }).currentIndex files.length
        = 0 := by
  have hn : 0 < files.length := List.length_pos.mpr h
  have hstep : ∀ s : LoopState,
      (main_loop_step s (successEnv files s)).displayed = true
      ∧ normalizeOnUpdate (advance_success files s).currentIndex files.length
          = (normalizeOnUpdate s.currentIndex files.length + 1) % files.length := by
    intro s
    constructor
    · rw [main_loop_step_success files s h]
    · unfold advance_success
      rw [main_loop_step_success files s h]
      exact normalizeOnUpdate_succ_mod s.currentIndex files.length hn
  have hiter : ∀ k : Nat,
      normalizeOnUpdate
        ((advance_success files)^[k]
          { currentIndex := 0, lastDisplayTime := t }).currentIndex files.length
        = k % files.length := by
    intro k
    induction k with
    | zero =>
      simp only [Function.iterate_zero, id_eq]
      rw [Nat.zero_mod]
      exact normalizeOnUpdate_of_lt _ _ (by omega)
    | succ k ih =>
      rw [Function.iterate_succ_apply']
      rw [(hstep _).2, ih]
      exact (Nat.mod_modEq k files.length).add_right 1
  exact ⟨hstep, by rw [hiter files.length, Nat.mod_self]⟩

/-- Witness for claim C5: three successful advances on a three-image
snapshot bring the normalized index back to 0. -/
theorem c5_witness :
    normalizeOnUpdate
      (((advance_success [("a.png"), ("b.png"), ("c.png")])^[3])
        { currentIndex := 0, lastDisplayTime := 0 }).currentIndex 3 = 0 :=
  (c5_wraparound [("a.png"), ("b.png"), ("c.png")] 0 (by decide)).2

/-- Claim C6: after a snapshot swap observed through the list_updated flag,
with a non-empty new snapshot, the normalized index is strictly below the
new length, equals 0 exactly on the out-of-range side (it is reset when the
old index reaches the new length and kept unchanged otherwise, never reset
unconditionally), and whatever the iteration then does, any image it
selects is the entry at that normalized index, so the index is never used
out of range. -/
theorem c6_normalize_on_swap (s : LoopState) (env : LoopEnv)
    (hu : env.listUpdated = true) (hn : 0 < env.files.length) :
    normalizeOnUpdate s.currentIndex env.files.length < env.files.length
    ∧ (env.files.length ≤ s.currentIndex →
        normalizeOnUpdate s.currentIndex env.files.length = 0)
    ∧ (s.currentIndex < env.files.length →
        normalizeOnUpdate s.currentIndex env.files.length = s.currentIndex)
    ∧ ((main_loop_step s env).shown = none
       ∨ (main_loop_step s env).shown
           = env.files[normalizeOnUpdate s.currentIndex env.files.length]?) := by
  have hne : env.files ≠ [] := by
    intro he
    rw [he] at hn
    simp at hn
  have hlt : normalizeOnUpdate s.currentIndex env.files.length < env.files.length :=
    normalizeOnUpdate_lt _ _ hn
  refine ⟨hlt, fun hge => ?_, fun hlt2 => ?_, ?_⟩
  · unfold normalizeOnUpdate
    rw [if_pos hge]
  · unfold normalizeOnUpdate
    rw [if_neg (by omega)]
  · have hgd : env.files.getD (normalizeOnUpdate s.currentIndex env.files.length) defaultName
        = env.files[normalizeOnUpdate s.currentIndex env.files.length] :=
      List.getD_eq_getElem env.files defaultName hlt
    have hsome : env.files[normalizeOnUpdate s.currentIndex env.files.length]?
        = some env.files[normalizeOnUpdate s.currentIndex env.files.length] :=
      List.getElem?_eq_getElem hlt
    unfold main_loop_step
    simp only [hu, if_true]
    rw [normalizeOnUpdate_idem s.currentIndex env.files.length]
    split_ifs <;> simp [hgd, hsome]

/-- Witness for claim C6: an out-of-range index 5 against a fresh two-image
snapshot is reset to 0 and the selected image is the first entry. -/
theorem c6_witness :
    normalizeOnUpdate 5 2 < 2
    ∧ (2 ≤ 5 → normalizeOnUpdate 5 2 = 0)
    ∧ (5 < 2 → normalizeOnUpdate 5 2 = 5)
    ∧ ((main_loop_step { currentIndex := 5, lastDisplayTime := 0 }
          { files := [("a.jpg"), ("b.jpg")], listUpdated := true, fileExists := true,
            now := 30, fileVanishedDuringOpen := false, renderOk := true,
            displayOk := true }).shown = none
       ∨ (main_loop_step { currentIndex := 5, lastDisplayTime := 0 }
          { files := [("a.jpg"), ("b.jpg")], listUpdated := true, fileExists := true,
            now := 30, fileVanishedDuringOpen := false, renderOk := true,
            displayOk := true }).shown = [("a.jpg"), ("b.jpg")][normalizeOnUpdate 5 2]?) :=
  c6_normalize_on_swap { currentIndex := 5, lastDisplayTime := 0 }
    { files := [("a.jpg"), ("b.jpg")], listUpdated := true, fileExists := true,
      now := 30, fileVanishedDuringOpen := false, renderOk := true, displayOk := true }
    rfl (by decide)

/-- Claim C7: when the pre-display existence check finds the selected file
missing, the iteration triggers a rescan, sleeps zero seconds, displays
nothing and leaves the whole state (currentIndex and lastDisplayTime)
unchanged; and the following iteration, seeing the corrected snapshot with
the updated flag set and the dwell already elapsed, displays the entry at
the normalized index of the new snapshot, the next still-present item. -/
theorem c7_missing_file_skip (s : LoopState) (files newFiles : List String) (now : Nat)
    (hi : s.currentIndex < files.length) (hn : newFiles ≠ [])
    (hd : s.lastDisplayTime + DISPLAY_TIME ≤ now) :
    main_loop_step s
        { files := files, listUpdated := false, fileExists := false, now := now,
          fileVanishedDuringOpen := false, renderOk := true, displayOk := true }
      = { state := s, rescan := true, sleep := 0, displayed := false, shown := none }
    ∧ (main_loop_step s
        { files := newFiles, listUpdated := true, fileExists := true, now := now,
          fileVanishedDuringOpen := false, renderOk := true, displayOk := true }).displayed
        = true
    ∧ (main_loop_step s
        { files := newFiles, listUpdated := true, fileExists := true, now := now,
          fileVanishedDuringOpen := false, renderOk := true, displayOk := true }).shown
        = newFiles[normalizeOnUpdate s.currentIndex newFiles.length]? := by
  have hne : files ≠ [] := by
    intro he
    rw [he] at hi
    simp at hi
  have hn2 : 0 < newFiles.length := List.length_pos.mpr hn
  have hnu : normalizeOnUpdate s.currentIndex files.length = s.currentIndex := by
    unfold normalizeOnUpdate
    rw [if_neg (by omega)]
  have hlt : normalizeOnUpdate s.currentIndex newFiles.length < newFiles.length :=
    normalizeOnUpdate_lt _ _ hn2
  have hgd : newFiles.getD (normalizeOnUpdate s.currentIndex newFiles.length) defaultName
      = newFiles[normalizeOnUpdate s.currentIndex newFiles.length] :=
    List.getD_eq_getElem newFiles defaultName hlt
  have hsome : newFiles[normalizeOnUpdate s.currentIndex newFiles.length]?
      = some newFiles[normalizeOnUpdate s.currentIndex newFiles.length] :=
    List.getElem?_eq_getElem hlt
  refine ⟨?_, ?_, ?_⟩
  · unfold main_loop_step
    simp [List.isEmpty_iff, hne, hnu]
  · unfold main_loop_step
    simp [List.isEmpty_iff, hn,
      Nat.not_lt.mpr (by omega : DISPLAY_TIME ≤ now - s.lastDisplayTime)]
  · unfold main_loop_step
    simp [List.isEmpty_iff, hn, normalizeOnUpdate_idem s.currentIndex newFiles.length, hgd, hsome,
      Nat.not_lt.mpr (by omega : DISPLAY_TIME ≤ now - s.lastDisplayTime)]

/-- Witness for claim C7, the three-image deletion race of the spec: with
snapshot a b c and index 1, the file b vanishes; the skip iteration keeps
the state and rescans, and the next iteration displays c, the next
still-present item, from the corrected two-image snapshot. -/
theorem c7_witness :
    main_loop_step { currentIndex := 1, lastDisplayTime := 0 }
        { files := [("a.jpg"), ("b.jpg"), ("c.jpg")], listUpdated := false,
          fileExists := false, now := 30, fileVanishedDuringOpen := false,
          renderOk := true, displayOk := true }
      = { state := { currentIndex := 1, lastDisplayTime := 0 }, rescan := true,
          sleep := 0, displayed := false, shown := none }
    ∧ (main_loop_step { currentIndex := 1, lastDisplayTime := 0 }
        { files := [("a.jpg"), ("c.jpg")], listUpdated := true, fileExists := true,
          now := 30, fileVanishedDuringOpen := false, renderOk := true,
          displayOk := true }).displayed = true
    ∧ (main_loop_step { currentIndex := 1, lastDisplayTime := 0 }
        { files := [("a.jpg"), ("c.jpg")], listUpdated := true, fileExists := true,
          now := 30, fileVanishedDuringOpen := false, renderOk := true,
          displayOk := true }).shown = [("a.jpg"), ("c.jpg")][normalizeOnUpdate 1 2]? :=
  c7_missing_file_skip { currentIndex := 1, lastDisplayTime := 0 }
    [("a.jpg"), ("b.jpg"), ("c.jpg")] [("a.jpg"), ("c.jpg")] 30
    (by decide) (by decide) (by decide)

/-- Claim C1, counterexample: packing the 8-bit pixel 248 252 8 into 16-bit
565 with the stated top-bit truncation does not give the value 0xFF81
announced by the specification. -/
theorem c1_counterexample : ¬ (rgb888_to_rgb565 248 252 8 = 0xFF81) := by
  decide

/-- Claim C1, amended: with red 248 truncated to 31, green 252 truncated to
63 and blue 8 truncated to 1, the packed 565 value of the pixel 248 252 8 is
0xFFE1, not 0xFF81. -/
theorem c1_amended :
    rgb888_to_rgb565 248 252 8 = 0xFFE1
    ∧ rgb888_to_rgb565 248 252 8 = (31 <<< 11) ||| (63 <<< 5) ||| 1 := by
  constructor <;> decide

/-- Claim C3, counterexample: starting from a snapshot holding a.jpg, a
rescan whose directory listing fails replaces the stored snapshot, leaving
the empty list instead of the last successful result. -/
theorem c3_counterexample :
    ¬ ((update_image_list { image_files := [("a.jpg")], list_updated := false }
          none).image_files
        = [("a.jpg")]) := by
  decide

/-- Claim C3, amended: after any rescan the stored snapshot equals the list
computed from that rescan, which is the filtered and sorted directory
listing on success and the empty list on a listing failure. A failed rescan
therefore does replace a non-empty snapshot with the empty list; the stored
snapshot tracks the latest rescan, successful or not, rather than the last
successful one. -/
theorem c3_amended (st : SharedListState) (listing : Option (List String)) :
    (update_image_list st listing).image_files = get_image_list listing := by
  simp only [update_image_list]
  split_ifs with h
  · rfl
  · simp only [ne_eq, not_not] at h
    exact h.symm

/-- Claim C4, counterexample: the INotify construction and add_watch happen
before the retry loop and outside any try-except, so a setup failure (for
example the watched directory not existing when the watcher starts)
propagates and the watcher task terminates: there is an input on which
file_watcher does not keep running. -/
theorem c4_counterexample :
    file_watcher (Except.error ()) [] { image_files := [], list_updated := false }
      = none := by
  rfl

/-- Claim C4, amended: once the watch is established, every error raised
inside the event-read loop is caught by its try-except, logged, and retried
after a one-second sleep with the shared state unchanged, and the watcher
runs through any schedule of read outcomes without terminating; but the
initial watch setup is outside that protection and its failure terminates
the watcher task, with no retry or backoff for a directory that does not
exist yet. -/
theorem c4_amended (reads : List WatcherRead) (st : SharedListState) :
    file_watcher (Except.ok ()) reads st = some (reads.foldl watcher_iteration st)
    ∧ watcher_iteration st WatcherRead.raised = st :=
  ⟨rfl, rfl⟩

/-- Truncation by Python int on a nonnegative rational agrees with the
floor. -/
theorem pyInt_eq_floor (q : ℚ) (hq : 0 ≤ q) : (pyInt q : ℤ) = ⌊q⌋ := by
  rw [Rat.floor_def]
  unfold pyInt
  rw [Int.ofNat_div]
  rw [Int.toNat_of_nonneg (Rat.num_nonneg.mpr hq)]
  exact Int.div_eq_ediv (Rat.num_nonneg.mpr hq) (by positivity)

/-- Claim C9: fit_image_to_screen always returns a canvas of exactly the
target dimensions; when the image aspect strictly exceeds the target aspect
it scales to the target width with new height the truncated quotient of the
target width by the image aspect, otherwise to the target height with new
width the truncated product of the target height and the image aspect; the
centering offsets are the halved differences, floored; and fitting a
1000 by 500 source onto an 800 by 480 target gives a scaled size of 800 by
400 with horizontal offset 0 and vertical offset 40. -/
theorem c9_fit (w h sw sh : Nat) :
    ((fit_image_to_screen w h sw sh).canvasW = sw
      ∧ (fit_image_to_screen w h sw sh).canvasH = sh)
    ∧ ((sw : ℚ) / (sh : ℚ) < (w : ℚ) / (h : ℚ) →
        (fit_image_to_screen w h sw sh).newW = sw
        ∧ (fit_image_to_screen w h sw sh).newH = pyInt ((sw : ℚ) / ((w : ℚ) / (h : ℚ))))
    ∧ (¬ ((sw : ℚ) / (sh : ℚ) < (w : ℚ) / (h : ℚ)) →
        (fit_image_to_screen w h sw sh).newH = sh
        ∧ (fit_image_to_screen w h sw sh).newW = pyInt ((sh : ℚ) * ((w : ℚ) / (h : ℚ))))
    ∧ ((fit_image_to_screen w h sw sh).xOff
          = (sw - (fit_image_to_screen w h sw sh).newW) / 2
      ∧ (fit_image_to_screen w h sw sh).yOff
          = (sh - (fit_image_to_screen w h sw sh).newH) / 2)
    ∧ fit_image_to_screen 1000 500 800 480
        = { canvasW := 800, canvasH := 480, newW := 800, newH := 400,
            xOff := 0, yOff := 40 } := by
  refine ⟨⟨rfl, rfl⟩, fun hcmp => ?_, fun hcmp => ?_, ⟨?_, ?_⟩, ?_⟩
  · simp only [fit_image_to_screen]
    rw [if_pos hcmp]
    exact ⟨rfl, rfl⟩
  · simp only [fit_image_to_screen]
    rw [if_neg hcmp]
    exact ⟨rfl, rfl⟩
  · rfl
  · rfl
  · have h1 : ((800 : ℚ) / (480 : ℚ)) < ((1000 : ℚ) / (500 : ℚ)) := by norm_num
    have h2 : ((800 : ℚ) / ((1000 : ℚ) / (500 : ℚ))) = 400 := by norm_num
    simp only [fit_image_to_screen, Nat.cast_ofNat, if_pos h1, h2]
    norm_num [pyInt]
    decide

/-- Witness for claim C9 at the concrete instance of the specification: the
wider-image branch applies to the 1000 by 500 source on the 800 by 480
target. -/
theorem c9_witness :
    (fit_image_to_screen 1000 500 800 480).newW = 800
    ∧ (fit_image_to_screen 1000 500 800 480).newH
        = pyInt ((800 : ℚ) / ((1000 : ℚ) / (500 : ℚ))) :=
  (c9_fit 1000 500 800 480).2.1 (by push_cast; norm_num)


end PiCtureFrame
